import Mathlib

/-!
Verification of the WhatsApp channel adapter (`pkg/channels/whatsapp.go`)
of secure_picoclaw.

The adapter is embedded shallowly:

* Stateful Go handlers become pure Lean functions that return an ordered
  trace of observable effects (`Effect`): media downloads, calls to the
  bus collaborator `HandleMessage`, and deletions of transient files.
* The external media fetch (`downloadMedia`) is an oracle: each attachment
  descriptor carries the path the download produced, with `""` standing
  for the Go function's empty-string failure result.
* The voice transcription capability (`GroqTranscriber`) is a record with
  an availability flag and a transcription function returning `Except`;
  the Go 30-second timeout surfaces to the caller as a transcription
  error, and is modelled as such.
* Bridge frames, which Go unmarshals into `map[string]interface{}`, are
  association lists over a JSON value type; Go's type assertion
  `v.(string)` is `asString`.
-/

namespace PicoClaw

/-- JSON values as decoded by `encoding/json` into `interface\x7b\x7d`. -/
inductive JValue where
  | null : JValue
  | bool (b : Bool) : JValue
  | num (n : Int) : JValue
  | str (s : String) : JValue
  | arr (xs : List JValue) : JValue
  | obj (fields : List (String × JValue)) : JValue

/-- Go's `v.(string)` type assertion on an optional decoded JSON value:
`some s` when the value is present and a string, `none` otherwise. -/
def asString : Option JValue → Option String
  | some (JValue.str s) => some s
  | _ => none

/-- Go's `m.(string)` applied to an element of a decoded JSON array. -/
def jStr? : JValue → Option String
  | JValue.str s => some s
  | _ => none

/-- Observable effects of the inbound handlers, in program order:
a successful `downloadMedia` call, a `HandleMessage` push to the bus,
and the deferred `os.Remove` of a transient file. -/
inductive Effect where
  | download (path : String) : Effect
  | busCall (senderID chatID content : String)
      (mediaPaths : List String) (metadata : List (String × String)) : Effect
  | removeFile (path : String) : Effect
deriving DecidableEq

/-- Whether an effect is a call to the bus interface `HandleMessage`. -/
def Effect.isBusCall : Effect → Bool
  | Effect.busCall _ _ _ _ _ => true
  | _ => false

/-- Whether an effect is a successful media download. -/
def Effect.isDownload : Effect → Bool
  | Effect.download _ => true
  | _ => false

/-- The sub-trace of bus calls in a trace. -/
def busCalls (t : List Effect) : List Effect := t.filter Effect.isBusCall

/-- Result of `GroqTranscriber.Transcribe` on success (`result.Text`). -/
structure TranscriptionResult where
  text : String

/-- The transcription capability: `IsAvailable()` and `Transcribe(ctx, path)`.
A context-deadline (30 s timeout) shows up to the caller as a `Transcribe`
error, so it is one of the `Except.error` outcomes. -/
structure Transcriber where
  available : Bool
  transcribe : String → Except String TranscriptionResult

/-- `handleVoiceMessage`: transcribes a voice message if a transcriber is
available; `none` models the Go nil transcriber field. -/
def handleVoiceMessage (transcriber : Option Transcriber) (audioPath : String) : String :=
  match transcriber with
  | none => "[voice]"
  | some tr =>
    if !tr.available then "[voice]"
    else
      match tr.transcribe audioPath with
      | Except.error _ => "[voice (transcription failed)]"
      | Except.ok result => "[voice transcription: " ++ result.text ++ "]"

/-- `appendWhatsAppContent`: newline-joined concatenation, no leading
newline when the existing content is empty. -/
def appendWhatsAppContent (content suffix : String) : String :=
  if content = "" then suffix else content ++ "\n" ++ suffix

/-- An image attachment: the oracled `downloadMedia` result (`""` on
failure) and `GetCaption()`. -/
structure ImageMsg where
  downloadResult : String
  caption : String

/-- A video attachment, like `ImageMsg`. -/
structure VideoMsg where
  downloadResult : String
  caption : String

/-- A document attachment: oracled download result, `GetCaption()` and
`GetFileName()` (the latter only feeds the temp-file extension). -/
structure DocMsg where
  downloadResult : String
  caption : String
  fileName : String

/-- An audio/voice attachment: oracled download result. -/
structure AudioMsg where
  downloadResult : String

/-- The extension chosen for a document download: `filepath.Ext` of the
declared filename, defaulting to `".bin"` when the filename is empty or
has no extension. `filepath.Ext` returns the suffix from the final dot. -/
def docDownloadExt (fileName : String) : String :=
  if fileName = "" then ".bin"
  else
    let ext := match (fileName.splitOn ".").reverse with
      | e :: _ :: _ => "." ++ e
      | _ => ""
    if ext = "" then ".bin" else ext

/-- The payload of a whatsmeow `events.Message`: text fields and the
optional attachments the handler inspects. `extendedText` is
`GetExtendedTextMessage()` (and its `GetText()`); `hasSticker` is
`GetStickerMessage() != nil`. -/
structure WAMessage where
  conversation : String
  extendedText : Option String
  imageMessage : Option ImageMsg
  videoMessage : Option VideoMsg
  documentMessage : Option DocMsg
  audioMessage : Option AudioMsg
  hasSticker : Bool

/-- `evt.Info` of a whatsmeow message event. `chatServer` is
`Info.Chat.Server`; `sender`/`chat` are the `String()` forms. -/
structure MessageInfo where
  isFromMe : Bool
  chatServer : String
  sender : String
  chat : String
  id : String
  pushName : String
  isGroup : Bool

/-- A whatsmeow `events.Message`. -/
structure MessageEvent where
  info : MessageInfo
  message : WAMessage

/-- Text extraction: `GetConversation()`, else the non-empty text of an
extended text message; first match wins. -/
def extractText (m : WAMessage) : String :=
  if m.conversation ≠ "" then m.conversation
  else
    match m.extendedText with
    | some t => if t ≠ "" then t else ""
    | none => ""

/-- The accumulator threaded through the extraction steps of
`handleMessageEvent`: the `content`, `mediaPaths` and `localFiles`
locals of the Go function. -/
structure NormState where
  content : String
  mediaPaths : List String
  localFiles : List String
deriving DecidableEq

/-- A successful download appends the path to both `localFiles` and
`mediaPaths`. -/
def recordDownload (s : NormState) (path : String) : NormState :=
  if path ≠ "" then
    { s with localFiles := s.localFiles ++ [path],
             mediaPaths := s.mediaPaths ++ [path] }
  else s

/-- A non-empty caption is appended to the content. -/
def recordCaption (s : NormState) (caption : String) : NormState :=
  if caption ≠ "" then
    { s with content := appendWhatsAppContent s.content caption }
  else s

/-- The image branch of `handleMessageEvent`. -/
def processImage (s : NormState) : Option ImageMsg → NormState
  | none => s
  | some img => recordCaption (recordDownload s img.downloadResult) img.caption

/-- The video branch of `handleMessageEvent`. -/
def processVideo (s : NormState) : Option VideoMsg → NormState
  | none => s
  | some vid => recordCaption (recordDownload s vid.downloadResult) vid.caption

/-- The document branch of `handleMessageEvent` (the extension computed
from the filename only names the temp file). -/
def processDocument (s : NormState) : Option DocMsg → NormState
  | none => s
  | some doc => recordCaption (recordDownload s doc.downloadResult) doc.caption

/-- The audio/voice branch: on a successful download the annotation from
`handleVoiceMessage` is appended to the content like a caption. -/
def processAudio (transcriber : Option Transcriber) (s : NormState) :
    Option AudioMsg → NormState
  | none => s
  | some a =>
      if a.downloadResult ≠ "" then
        { content := appendWhatsAppContent s.content
            (handleVoiceMessage transcriber a.downloadResult),
          mediaPaths := s.mediaPaths ++ [a.downloadResult],
          localFiles := s.localFiles ++ [a.downloadResult] }
      else s

/-- The sticker branch: a literal placeholder appended to the content. -/
def processSticker (s : NormState) (has : Bool) : NormState :=
  if has then { s with content := appendWhatsAppContent s.content "[sticker]" } else s

/-- State after text extraction, before any attachment branch. -/
def normState0 (m : WAMessage) : NormState :=
  { content := extractText m, mediaPaths := [], localFiles := [] }

/-- State after the image branch. -/
def normStateAfterImage (m : WAMessage) : NormState :=
  processImage (normState0 m) m.imageMessage

/-- State after the video branch. -/
def normStateAfterVideo (m : WAMessage) : NormState :=
  processVideo (normStateAfterImage m) m.videoMessage

/-- State after the document branch. -/
def normStateAfterDoc (m : WAMessage) : NormState :=
  processDocument (normStateAfterVideo m) m.documentMessage

/-- State after the audio/voice branch. -/
def normStateAfterAudio (transcriber : Option Transcriber) (m : WAMessage) : NormState :=
  processAudio transcriber (normStateAfterDoc m) m.audioMessage

/-- The full extraction pipeline of `handleMessageEvent`, in source
order: text, image, video, document, audio, sticker. -/
def normalize (transcriber : Option Transcriber) (m : WAMessage) : NormState :=
  processSticker (normStateAfterAudio transcriber m) m.hasSticker

/-- The metadata map built for a native message: always `message_id` and
`sender_jid`, plus `user_name` and `is_group` when known. -/
def nativeMetadata (info : MessageInfo) : List (String × String) :=
  [("message_id", info.id), ("sender_jid", info.sender)]
    ++ (if info.pushName ≠ "" then [("user_name", info.pushName)] else [])
    ++ (if info.isGroup then [("is_group", "true")] else [])

/-- `handleMessageEvent` as an effect trace. Self-sent and broadcast
messages return before any extraction. Downloads happen during
extraction; the bus call (when the message is not dropped) precedes the
deferred `os.Remove` of every path in `localFiles`, which runs on every
exit path of the Go function. -/
def handleMessageEvent (transcriber : Option Transcriber) (evt : MessageEvent) :
    List Effect :=
  if evt.info.isFromMe then []
  else if evt.info.chatServer = "broadcast" then []
  else if (normalize transcriber evt.message).content = ""
      ∧ (normalize transcriber evt.message).mediaPaths = [] then
    (normalize transcriber evt.message).localFiles.map Effect.download
      ++ (normalize transcriber evt.message).localFiles.map Effect.removeFile
  else
    (normalize transcriber evt.message).localFiles.map Effect.download
      ++ [Effect.busCall evt.info.sender evt.info.chat
            (normalize transcriber evt.message).content
            (normalize transcriber evt.message).mediaPaths (nativeMetadata evt.info)]
      ++ (normalize transcriber evt.message).localFiles.map Effect.removeFile

/-- The event kinds the whatsmeow dispatcher `handleEvent` switches on.
A history-sync event may wrap message-shaped payloads; the dispatcher
ignores it regardless. `other` stands for every unlisted event type,
which falls through the switch. -/
inductive WAEvent where
  | message (evt : MessageEvent) : WAEvent
  | connected : WAEvent
  | disconnected : WAEvent
  | loggedOut : WAEvent
  | historySync (evt : MessageEvent) : WAEvent
  | other : WAEvent

/-- `handleEvent`: only `events.Message` reaches `handleMessageEvent`;
connected/disconnected only log, logged-out only clears the running
flag, history sync is explicitly ignored. -/
def handleEvent (transcriber : Option Transcriber) : WAEvent → List Effect
  | WAEvent.message evt => handleMessageEvent transcriber evt
  | WAEvent.connected => []
  | WAEvent.disconnected => []
  | WAEvent.loggedOut => []
  | WAEvent.historySync _ => []
  | WAEvent.other => []

/-- The `media` field of a bridge frame: present array values filtered to
their string elements, otherwise no paths. -/
def bridgeMediaPaths (msg : List (String × JValue)) : List String :=
  match List.lookup "media" msg with
  | some (JValue.arr xs) => xs.filterMap jStr?
  | _ => []

/-- The metadata map built for a bridge message: `message_id` when the
frame carries a string `id`, `user_name` when it carries a string
`from_name`, nothing else. -/
def bridgeMetadata (msg : List (String × JValue)) : List (String × String) :=
  (match asString (List.lookup "id" msg) with
    | some i => [("message_id", i)]
    | none => [])
    ++ (match asString (List.lookup "from_name" msg) with
    | some n => [("user_name", n)]
    | none => [])

/-- `handleBridgeMessage`: drops the frame when `from` is absent or not a
string; otherwise one bus call with `chat` defaulting to `from` and
`content` defaulting to empty. -/
def handleBridgeMessage (msg : List (String × JValue)) : List Effect :=
  match asString (List.lookup "from" msg) with
  | none => []
  | some senderID =>
      let chatID := (asString (List.lookup "chat" msg)).getD senderID
      let content := (asString (List.lookup "content" msg)).getD ""
      [Effect.busCall senderID chatID content (bridgeMediaPaths msg) (bridgeMetadata msg)]

/-- One iteration's input to the bridge read loop: a socket read error
(logged, backoff, continue), an unparsable frame (logged, continue), or
a decoded JSON object. -/
inductive BridgeFrame where
  | readError : BridgeFrame
  | malformed : BridgeFrame
  | parsed (msg : List (String × JValue)) : BridgeFrame

/-- One iteration of `listenBridge`: read errors and parse failures
produce nothing; a decoded frame is acted on only when its `type` field
is the string `"message"`. -/
def processBridgeFrame : BridgeFrame → List Effect
  | BridgeFrame.readError => []
  | BridgeFrame.malformed => []
  | BridgeFrame.parsed msg =>
      match asString (List.lookup "type" msg) with
      | none => []
      | some t => if t = "message" then handleBridgeMessage msg else []

/-- The bridge read loop over a finite sequence of received frames;
effects accumulate in arrival order. -/
def listenBridge (frames : List BridgeFrame) : List Effect :=
  frames.flatMap processBridgeFrame

/-- `config.WhatsAppConfig`, restricted to the field the dispatch reads. -/
structure WhatsAppConfig where
  bridgeURL : String

/-- Which of the two transport implementations a call runs on. -/
inductive TransportPath where
  | native : TransportPath
  | bridge : TransportPath
deriving DecidableEq

/-- The dispatch of `Start`: bridge mode iff `BridgeURL` is non-empty. -/
def startPath (cfg : WhatsAppConfig) : TransportPath :=
  if cfg.bridgeURL ≠ "" then TransportPath.bridge else TransportPath.native

/-- The dispatch of `Stop`: bridge mode iff `BridgeURL` is non-empty. -/
def stopPath (cfg : WhatsAppConfig) : TransportPath :=
  if cfg.bridgeURL ≠ "" then TransportPath.bridge else TransportPath.native

/-- The dispatch of `Send`: bridge mode iff `BridgeURL` is non-empty. -/
def sendPath (cfg : WhatsAppConfig) : TransportPath :=
  if cfg.bridgeURL ≠ "" then TransportPath.bridge else TransportPath.native

/-! ### Helper lemmas -/

theorem lookup_head {β : Type} (k : String) (v : β) (l : List (String × β)) :
    List.lookup k ((k, v) :: l) = some v := by
  simp [List.lookup]

theorem busCalls_nil : busCalls [] = [] := rfl

theorem busCalls_append (a b : List Effect) :
    busCalls (a ++ b) = busCalls a ++ busCalls b := by
  simp [busCalls, List.filter_append]

theorem busCalls_map_download (l : List String) :
    busCalls (l.map Effect.download) = [] := by
  simp [busCalls, List.filter_map, Effect.isBusCall]

theorem busCalls_map_removeFile (l : List String) :
    busCalls (l.map Effect.removeFile) = [] := by
  simp [busCalls, List.filter_map, Effect.isBusCall]

theorem recordDownload_content (s : NormState) (p : String) :
    (recordDownload s p).content = s.content := by
  unfold recordDownload; split <;> rfl

theorem busCall_not_mem_map_download {s c co : String} {m : List String}
    {md : List (String × String)} {l : List String} :
    Effect.busCall s c co m md ∉ l.map Effect.download := by
  simp

theorem busCall_not_mem_map_removeFile {s c co : String} {m : List String}
    {md : List (String × String)} {l : List String} :
    Effect.busCall s c co m md ∉ l.map Effect.removeFile := by
  simp

theorem handleMessageEvent_cases (transcriber : Option Transcriber) (evt : MessageEvent) :
    handleMessageEvent transcriber evt = [] ∨
    handleMessageEvent transcriber evt =
      (normalize transcriber evt.message).localFiles.map Effect.download
        ++ (normalize transcriber evt.message).localFiles.map Effect.removeFile ∨
    handleMessageEvent transcriber evt =
      (normalize transcriber evt.message).localFiles.map Effect.download
        ++ [Effect.busCall evt.info.sender evt.info.chat
              (normalize transcriber evt.message).content
              (normalize transcriber evt.message).mediaPaths (nativeMetadata evt.info)]
        ++ (normalize transcriber evt.message).localFiles.map Effect.removeFile := by
  unfold handleMessageEvent
  split
  · exact Or.inl rfl
  split
  · exact Or.inl rfl
  split
  · exact Or.inr (Or.inl rfl)
  · exact Or.inr (Or.inr rfl)

theorem lookup_nativeMetadata_id (info : MessageInfo) :
    List.lookup "message_id" (nativeMetadata info) = some info.id := rfl

theorem lookup_nativeMetadata_sender (info : MessageInfo) :
    List.lookup "sender_jid" (nativeMetadata info) = some info.sender := rfl

/-! ### Claim theorems -/

/-- C6: the voice annotation never fails outward: for every transcriber
state and path `handleVoiceMessage` returns a string — the
"not transcribed" placeholder when no transcriber is configured or it
reports unavailable, the "transcription failed" placeholder when the
transcription call errors (a hit of the 30-second context deadline
surfaces as such an error), and an annotation embedding the transcribed
text on success. -/
theorem C6_voice_total (transcriber : Option Transcriber) (audioPath : String) :
    ((transcriber = none ∨ ∃ tr, transcriber = some tr ∧ tr.available = false) →
      handleVoiceMessage transcriber audioPath = "[voice]")
  ∧ (∀ tr e, transcriber = some tr → tr.available = true →
      tr.transcribe audioPath = Except.error e →
      handleVoiceMessage transcriber audioPath = "[voice (transcription failed)]")
  ∧ (∀ tr r, transcriber = some tr → tr.available = true →
      tr.transcribe audioPath = Except.ok r →
      handleVoiceMessage transcriber audioPath = "[voice transcription: " ++ r.text ++ "]") := by
  refine ⟨?_, ?_, ?_⟩
  · rintro (rfl | ⟨tr, rfl, hav⟩)
    · rfl
    · simp [handleVoiceMessage, hav]
  · rintro tr e rfl hav herr
    simp [handleVoiceMessage, hav, herr]
  · rintro tr r rfl hav hok
    simp [handleVoiceMessage, hav, hok]

/-- Witness for C6 at a concrete input: with no transcriber configured
the annotation is the "not transcribed" placeholder. -/
theorem C6_voice_total_witness :
    handleVoiceMessage none "/tmp/wa_voice.ogg" = "[voice]" :=
  (C6_voice_total none "/tmp/wa_voice.ogg").1 (Or.inl rfl)

/-- C9: a non-empty bridge endpoint sends `Start`, `Stop` and `Send` down
the bridge-mode path; an empty one sends all three down the native-mode
path; the three dispatches always agree, and taking the bridge path and
taking the native path exclude each other. -/
theorem C9_mode_dispatch (cfg : WhatsAppConfig) :
    (cfg.bridgeURL ≠ "" →
      startPath cfg = TransportPath.bridge ∧ stopPath cfg = TransportPath.bridge ∧
        sendPath cfg = TransportPath.bridge)
  ∧ (cfg.bridgeURL = "" →
      startPath cfg = TransportPath.native ∧ stopPath cfg = TransportPath.native ∧
        sendPath cfg = TransportPath.native)
  ∧ startPath cfg = stopPath cfg ∧ stopPath cfg = sendPath cfg
  ∧ (startPath cfg = TransportPath.bridge ↔ ¬ startPath cfg = TransportPath.native) := by
  by_cases h : cfg.bridgeURL = ""
  · refine ⟨fun hne => absurd h hne, fun _ => ?_, ?_, ?_, ?_⟩ <;>
      simp [startPath, stopPath, sendPath, h]
  · refine ⟨fun _ => ?_, fun he => absurd he h, ?_, ?_, ?_⟩ <;>
      simp [startPath, stopPath, sendPath, h]

/-- Witness for C9 at concrete configurations: a bridge URL selects the
bridge path, an empty one the native path. -/
theorem C9_mode_dispatch_witness :
    startPath ⟨"ws://localhost:3001"⟩ = TransportPath.bridge ∧
    startPath ⟨""⟩ = TransportPath.native :=
  ⟨((C9_mode_dispatch ⟨"ws://localhost:3001"⟩).1 (by decide)).1,
   ((C9_mode_dispatch ⟨""⟩).2.1 rfl).1⟩

/-- C10: a bridge frame of type "message" whose `from` field is absent or
not a string produces no bus call, and the read loop continues with the
remaining frames. -/
theorem C10_bridge_missing_from (msg : List (String × JValue)) (rest : List BridgeFrame)
    (ht : asString (List.lookup "type" msg) = some "message")
    (hf : asString (List.lookup "from" msg) = none) :
    handleBridgeMessage msg = []
    ∧ listenBridge (BridgeFrame.parsed msg :: rest) = listenBridge rest := by
  have hmsg : handleBridgeMessage msg = [] := by
    unfold handleBridgeMessage
    rw [hf]
  refine ⟨hmsg, ?_⟩
  show processBridgeFrame (BridgeFrame.parsed msg) ++ listenBridge rest = listenBridge rest
  simp only [processBridgeFrame]
  rw [ht]
  simpa using hmsg

/-- Witness for C10 at a concrete input: a "message" frame with no `from`
field is dropped and the following frame is still processed. -/
theorem C10_bridge_missing_from_witness :
    handleBridgeMessage [("type", JValue.str "message")] = []
    ∧ listenBridge
        [BridgeFrame.parsed [("type", JValue.str "message")],
         BridgeFrame.parsed
           [("type", JValue.str "message"), ("from", JValue.str "B")]]
      = listenBridge
          [BridgeFrame.parsed
            [("type", JValue.str "message"), ("from", JValue.str "B")]] :=
  C10_bridge_missing_from [("type", JValue.str "message")]
    [BridgeFrame.parsed [("type", JValue.str "message"), ("from", JValue.str "B")]]
    rfl rfl

/-- C8: in the bridge read loop, frames without a string `type` field and
frames whose type is not "message" produce no effects; a "message" frame
with a string `from` produces exactly one bus call with `senderID` the
`from` field, `chatID` the `chat` field defaulting to `from`, and
`content` the `content` field defaulting to empty; and the concrete
sequence of a ping frame and a message frame from "A" with content "hi"
yields exactly the one bus call `senderID="A"`, `chatID="A"`,
`content="hi"`. -/
theorem C8_bridge_read_loop :
    (∀ msg, asString (List.lookup "type" msg) = none →
        processBridgeFrame (BridgeFrame.parsed msg) = [])
  ∧ (∀ msg t, asString (List.lookup "type" msg) = some t → t ≠ "message" →
        processBridgeFrame (BridgeFrame.parsed msg) = [])
  ∧ (∀ msg sender, asString (List.lookup "type" msg) = some "message" →
        asString (List.lookup "from" msg) = some sender →
        processBridgeFrame (BridgeFrame.parsed msg) =
          [Effect.busCall sender
            ((asString (List.lookup "chat" msg)).getD sender)
            ((asString (List.lookup "content" msg)).getD "")
            (bridgeMediaPaths msg) (bridgeMetadata msg)])
  ∧ listenBridge
      [BridgeFrame.parsed [("type", JValue.str "ping")],
       BridgeFrame.parsed
         [("type", JValue.str "message"), ("from", JValue.str "A"),
          ("content", JValue.str "hi")]]
      = [Effect.busCall "A" "A" "hi" [] []] := by
  refine ⟨?_, ?_, ?_, rfl⟩
  · intro msg ht
    simp only [processBridgeFrame]
    rw [ht]
  · intro msg t ht hne
    simp only [processBridgeFrame]
    rw [ht]
    simp [hne]
  · intro msg sender ht hf
    simp only [processBridgeFrame]
    rw [ht]
    simp only [if_pos rfl]
    unfold handleBridgeMessage
    rw [hf]
    simp

/-- Witness for C8 at a concrete input: a lone "message" frame from "A"
with content "hi" produces the single expected bus call. -/
theorem C8_bridge_read_loop_witness :
    processBridgeFrame
      (BridgeFrame.parsed
        [("type", JValue.str "message"), ("from", JValue.str "A"),
         ("content", JValue.str "hi")])
      = [Effect.busCall "A" "A" "hi" [] []] := by
  have h := C8_bridge_read_loop.2.2.1
    [("type", JValue.str "message"), ("from", JValue.str "A"),
     ("content", JValue.str "hi")] "A" rfl rfl
  simpa using h

/-- C1 counterexample: a bridge "message" frame with a string `from` but
no content and no media normalizes to empty content and an empty media
list, yet it is forwarded — one bus call occurs, not zero. -/
theorem C1_counterexample :
    processBridgeFrame
      (BridgeFrame.parsed [("type", JValue.str "message"), ("from", JValue.str "A")])
      = [Effect.busCall "A" "A" "" [] []] := rfl

/-- C1 amended: in native mode only, a payload whose normalization yields
empty content and an empty media list is dropped — the handler makes no
bus call (bridge-mode frames are forwarded regardless, see the
counterexample). -/
theorem C1_amended_native_empty_drop (transcriber : Option Transcriber)
    (evt : MessageEvent)
    (h1 : (normalize transcriber evt.message).content = "")
    (h2 : (normalize transcriber evt.message).mediaPaths = []) :
    busCalls (handleMessageEvent transcriber evt) = [] := by
  unfold handleMessageEvent
  split
  · rfl
  · split
    · rfl
    · rw [if_pos ⟨h1, h2⟩, busCalls_append, busCalls_map_download,
        busCalls_map_removeFile]
      rfl

/-- Witness for C1 amended at a concrete input: an empty native payload
(no text, no attachments) produces no bus call. -/
theorem C1_amended_witness :
    busCalls (handleMessageEvent none
      ⟨⟨false, "s.whatsapp.net", "S", "C", "ID1", "", false⟩,
       ⟨"", none, none, none, none, none, false⟩⟩) = [] :=
  C1_amended_native_empty_drop none
    ⟨⟨false, "s.whatsapp.net", "S", "C", "ID1", "", false⟩,
     ⟨"", none, none, none, none, none, false⟩⟩ rfl rfl

/-- C2 counterexample: a bridge frame with a string `from` but no `id`
field reaches the bus with an empty metadata map — it contains neither
the message identifier nor any sender-address key. -/
theorem C2_counterexample :
    handleBridgeMessage [("from", JValue.str "A")]
      = [Effect.busCall "A" "A" "" [] []]
    ∧ List.lookup "message_id" ([] : List (String × String)) = none :=
  ⟨rfl, rfl⟩

/-- C2 amended: every native-mode bus call carries metadata containing
the message identifier under `message_id` and the sender address under
`sender_jid`; a bridge-mode bus call carries the sender address as its
`senderID` argument (the frame's `from` field), and its metadata
contains `message_id` only when the frame carries a string `id`. -/
theorem C2_amended_metadata (transcriber : Option Transcriber) (evt : MessageEvent)
    (msg : List (String × JValue)) :
    (∀ s c co m md, Effect.busCall s c co m md ∈ handleMessageEvent transcriber evt →
       List.lookup "message_id" md = some evt.info.id ∧
       List.lookup "sender_jid" md = some evt.info.sender)
  ∧ (∀ s c co m md, Effect.busCall s c co m md ∈ handleBridgeMessage msg →
       asString (List.lookup "from" msg) = some s ∧
       (∀ i, asString (List.lookup "id" msg) = some i →
          List.lookup "message_id" md = some i)) := by
  constructor
  · intro s c co m md h
    rcases handleMessageEvent_cases transcriber evt with heq | heq | heq <;> rw [heq] at h
    · simp at h
    · rcases List.mem_append.mp h with h' | h'
      · exact absurd h' busCall_not_mem_map_download
      · exact absurd h' busCall_not_mem_map_removeFile
    · rcases List.mem_append.mp h with h' | h'
      · rcases List.mem_append.mp h' with h'' | h''
        · exact absurd h'' busCall_not_mem_map_download
        · rcases List.mem_singleton.mp h'' with heq'
          obtain ⟨-, -, -, -, hm⟩ := Effect.busCall.inj heq'
          rw [hm, lookup_nativeMetadata_id, lookup_nativeMetadata_sender]
          exact ⟨rfl, rfl⟩
      · exact absurd h' busCall_not_mem_map_removeFile
  · intro s c co m md h
    unfold handleBridgeMessage at h
    rcases hf : asString (List.lookup "from" msg) with _ | senderID <;> rw [hf] at h
    · simp at h
    · rcases List.mem_singleton.mp h with heq'
      obtain ⟨hs, -, -, -, hm⟩ := Effect.busCall.inj heq'
      refine ⟨by rw [hs], ?_⟩
      intro i hi
      rw [hm]
      simp only [bridgeMetadata, hi]
      exact lookup_head "message_id" i _

/-- Witness for C2 amended at concrete inputs: a native text message's
bus call carries both `message_id` and `sender_jid`; a bridge frame with
an `id` field yields metadata whose `message_id` is that id. -/
theorem C2_amended_witness :
    (List.lookup "message_id" [("message_id", "ID1"), ("sender_jid", "S")]
        = some "ID1"
      ∧ List.lookup "sender_jid" [("message_id", "ID1"), ("sender_jid", "S")]
        = some "S")
    ∧ (asString (List.lookup "from" [("from", JValue.str "A"), ("id", JValue.str "M7")])
        = some "A"
      ∧ ∀ i, asString (List.lookup "id" [("from", JValue.str "A"), ("id", JValue.str "M7")])
          = some i →
          List.lookup "message_id" [("message_id", "M7")] = some i) :=
  ⟨(C2_amended_metadata none
      ⟨⟨false, "s.whatsapp.net", "S", "C", "ID1", "", false⟩,
       ⟨"hello", none, none, none, none, none, false⟩⟩
      [("from", JValue.str "A"), ("id", JValue.str "M7")]).1
      "S" "C" "hello" [] [("message_id", "ID1"), ("sender_jid", "S")] (by decide),
   (C2_amended_metadata none
      ⟨⟨false, "s.whatsapp.net", "S", "C", "ID1", "", false⟩,
       ⟨"hello", none, none, none, none, none, false⟩⟩
      [("from", JValue.str "A"), ("id", JValue.str "M7")]).2
      "A" "A" "" [] [("message_id", "M7")] (by decide)⟩

/-- C3: whenever `handleMessageEvent` downloads a transient media file,
that file is removed in the same call: the trace is a prefix of
downloads and at most one bus call, followed by the removals of every
path in `localFiles` — so each removal, including the downloaded file's,
comes after the bus hand-off, on every exit path. -/
theorem C3_media_cleanup (transcriber : Option Transcriber) (evt : MessageEvent)
    (p : String) (h : Effect.download p ∈ handleMessageEvent transcriber evt) :
    ∃ pre,
      handleMessageEvent transcriber evt
        = pre ++ (normalize transcriber evt.message).localFiles.map Effect.removeFile
      ∧ Effect.removeFile p
          ∈ (normalize transcriber evt.message).localFiles.map Effect.removeFile
      ∧ ∀ e ∈ pre, Effect.isDownload e = true ∨ Effect.isBusCall e = true := by
  rcases handleMessageEvent_cases transcriber evt with heq | heq | heq
  · rw [heq] at h; simp at h
  · refine ⟨(normalize transcriber evt.message).localFiles.map Effect.download,
      heq, ?_, ?_⟩
    · rw [heq] at h
      rcases List.mem_append.mp h with h' | h'
      · rcases List.mem_map.mp h' with ⟨a, ha, hae⟩
        obtain rfl := (Effect.download.inj hae)
        exact List.mem_map.mpr ⟨a, ha, rfl⟩
      · rcases List.mem_map.mp h' with ⟨a, _, hae⟩
        cases hae
    · intro e he
      rcases List.mem_map.mp he with ⟨a, _, rfl⟩
      exact Or.inl rfl
  · refine ⟨(normalize transcriber evt.message).localFiles.map Effect.download
        ++ [Effect.busCall evt.info.sender evt.info.chat
              (normalize transcriber evt.message).content
              (normalize transcriber evt.message).mediaPaths (nativeMetadata evt.info)],
      by rw [heq, List.append_assoc], ?_, ?_⟩
    · rw [heq] at h
      rcases List.mem_append.mp h with h' | h'
      · rcases List.mem_append.mp h' with h'' | h''
        · rcases List.mem_map.mp h'' with ⟨a, ha, hae⟩
          obtain rfl := (Effect.download.inj hae)
          exact List.mem_map.mpr ⟨a, ha, rfl⟩
        · rcases List.mem_singleton.mp h'' with heq'
          cases heq'
      · rcases List.mem_map.mp h' with ⟨a, _, hae⟩
        cases hae
    · intro e he
      rcases List.mem_append.mp he with h' | h'
      · rcases List.mem_map.mp h' with ⟨a, _, rfl⟩
        exact Or.inl rfl
      · rcases List.mem_singleton.mp h' with rfl
        exact Or.inr rfl

/-- Witness for C3 at a concrete input: an image message whose download
produced `/tmp/f1` has its file removed after the bus call. -/
theorem C3_media_cleanup_witness :
    ∃ pre,
      handleMessageEvent none
          ⟨⟨false, "s.whatsapp.net", "S", "C", "ID1", "", false⟩,
           ⟨"", none, some ⟨"/tmp/f1", "cap"⟩, none, none, none, false⟩⟩
        = pre ++ (normalize none
            ⟨"", none, some ⟨"/tmp/f1", "cap"⟩, none, none, none, false⟩).localFiles.map
              Effect.removeFile
      ∧ Effect.removeFile "/tmp/f1"
          ∈ (normalize none
              ⟨"", none, some ⟨"/tmp/f1", "cap"⟩, none, none, none, false⟩).localFiles.map
                Effect.removeFile
      ∧ ∀ e ∈ pre, Effect.isDownload e = true ∨ Effect.isBusCall e = true :=
  C3_media_cleanup none
    ⟨⟨false, "s.whatsapp.net", "S", "C", "ID1", "", false⟩,
     ⟨"", none, some ⟨"/tmp/f1", "cap"⟩, none, none, none, false⟩⟩
    "/tmp/f1" (by decide)

/-- C4: on a native payload carrying an audio attachment whose download
succeeded, the annotation returned by the voice annotator is appended to
the content exactly like a caption: after a single newline when the
content so far is non-empty, else as the entire content. -/
theorem C4_voice_caption_append (transcriber : Option Transcriber) (m : WAMessage)
    (a : AudioMsg) (ha : m.audioMessage = some a) (hd : a.downloadResult ≠ "") :
    (normStateAfterAudio transcriber m).content =
      if (normStateAfterDoc m).content = "" then
        handleVoiceMessage transcriber a.downloadResult
      else
        (normStateAfterDoc m).content ++ "\n"
          ++ handleVoiceMessage transcriber a.downloadResult := by
  unfold normStateAfterAudio
  rw [ha]
  simp only [processAudio, if_pos hd]
  rfl

/-- Witness for C4 at a concrete input: a voice note with no transcriber
configured and empty prior content gets `[voice]` as its content. -/
theorem C4_voice_caption_append_witness :
    (normStateAfterAudio none
        ⟨"", none, none, none, none, some ⟨"/tmp/v.ogg"⟩, false⟩).content =
      if (normStateAfterDoc
            ⟨"", none, none, none, none, some ⟨"/tmp/v.ogg"⟩, false⟩).content = ""
      then handleVoiceMessage none "/tmp/v.ogg"
      else (normStateAfterDoc
            ⟨"", none, none, none, none, some ⟨"/tmp/v.ogg"⟩, false⟩).content
        ++ "\n" ++ handleVoiceMessage none "/tmp/v.ogg" :=
  C4_voice_caption_append none ⟨"", none, none, none, none, some ⟨"/tmp/v.ogg"⟩, false⟩
    ⟨"/tmp/v.ogg"⟩ rfl (by decide)

/-- C5: self-originated and broadcast-addressed native payloads produce
no effects at all (in particular no bus call), and history-replay events
produce none either, whatever message they wrap. -/
theorem C5_filtered_never_reach_bus (transcriber : Option Transcriber)
    (evt evt2 : MessageEvent)
    (h : evt.info.isFromMe = true ∨ evt.info.chatServer = "broadcast") :
    handleEvent transcriber (WAEvent.message evt) = []
    ∧ handleEvent transcriber (WAEvent.historySync evt2) = [] := by
  refine ⟨?_, rfl⟩
  show handleMessageEvent transcriber evt = []
  unfold handleMessageEvent
  rcases h with h | h
  · rw [if_pos h]
  · by_cases hme : evt.info.isFromMe = true
    · rw [if_pos hme]
    · rw [if_neg hme, if_pos h]

/-- Witness for C5 at concrete inputs: a self-sent message is dropped,
and so is a history-replay wrapper of an ordinary text message. -/
theorem C5_filtered_never_reach_bus_witness :
    handleEvent none (WAEvent.message
        ⟨⟨true, "s.whatsapp.net", "S", "C", "ID1", "", false⟩,
         ⟨"hello", none, none, none, none, none, false⟩⟩) = []
    ∧ handleEvent none (WAEvent.historySync
        ⟨⟨false, "s.whatsapp.net", "S", "C", "ID2", "", false⟩,
         ⟨"old", none, none, none, none, none, false⟩⟩) = [] :=
  C5_filtered_never_reach_bus none
    ⟨⟨true, "s.whatsapp.net", "S", "C", "ID1", "", false⟩,
     ⟨"hello", none, none, none, none, none, false⟩⟩
    ⟨⟨false, "s.whatsapp.net", "S", "C", "ID2", "", false⟩,
     ⟨"old", none, none, none, none, none, false⟩⟩
    (Or.inl rfl)

/-- C7: for a payload with text and exactly one attachment carrying a
non-empty caption (image, video or document), the normalized content is
the text, a single newline, and the caption when the text is non-empty,
else the caption alone with no leading newline. -/
theorem C7_caption_append (transcriber : Option Transcriber) (m : WAMessage) :
    (∀ img, m.imageMessage = some img → m.videoMessage = none →
      m.documentMessage = none → m.audioMessage = none → m.hasSticker = false →
      img.caption ≠ "" →
      (normalize transcriber m).content =
        if extractText m = "" then img.caption
        else extractText m ++ "\n" ++ img.caption)
  ∧ (∀ vid, m.imageMessage = none → m.videoMessage = some vid →
      m.documentMessage = none → m.audioMessage = none → m.hasSticker = false →
      vid.caption ≠ "" →
      (normalize transcriber m).content =
        if extractText m = "" then vid.caption
        else extractText m ++ "\n" ++ vid.caption)
  ∧ (∀ doc, m.imageMessage = none → m.videoMessage = none →
      m.documentMessage = some doc → m.audioMessage = none → m.hasSticker = false →
      doc.caption ≠ "" →
      (normalize transcriber m).content =
        if extractText m = "" then doc.caption
        else extractText m ++ "\n" ++ doc.caption) := by
  refine ⟨?_, ?_, ?_⟩
  · intro img hi hv hd ha hs hc
    unfold normalize normStateAfterAudio normStateAfterDoc normStateAfterVideo
      normStateAfterImage
    rw [hi, hv, hd, ha, hs]
    simp only [processImage, processVideo, processDocument, processAudio,
      processSticker, if_neg (by simp : ¬(false = true)), recordCaption, if_pos hc,
      recordDownload_content, appendWhatsAppContent, normState0]
  · intro vid hi hv hd ha hs hc
    unfold normalize normStateAfterAudio normStateAfterDoc normStateAfterVideo
      normStateAfterImage
    rw [hi, hv, hd, ha, hs]
    simp only [processImage, processVideo, processDocument, processAudio,
      processSticker, if_neg (by simp : ¬(false = true)), recordCaption, if_pos hc,
      recordDownload_content, appendWhatsAppContent, normState0]
  · intro doc hi hv hd ha hs hc
    unfold normalize normStateAfterAudio normStateAfterDoc normStateAfterVideo
      normStateAfterImage
    rw [hi, hv, hd, ha, hs]
    simp only [processImage, processVideo, processDocument, processAudio,
      processSticker, if_neg (by simp : ¬(false = true)), recordCaption, if_pos hc,
      recordDownload_content, appendWhatsAppContent, normState0]

/-- Witness for C7 at a concrete input: text "hi" with a captioned image
normalizes to the text, a newline, and the caption. -/
theorem C7_caption_append_witness :
    (normalize none
        ⟨"hi", none, some ⟨"/tmp/f1", "cap"⟩, none, none, none, false⟩).content =
      if extractText ⟨"hi", none, some ⟨"/tmp/f1", "cap"⟩, none, none, none, false⟩ = ""
      then "cap"
      else extractText ⟨"hi", none, some ⟨"/tmp/f1", "cap"⟩, none, none, none, false⟩
        ++ "\n" ++ "cap" :=
  (C7_caption_append none
      ⟨"hi", none, some ⟨"/tmp/f1", "cap"⟩, none, none, none, false⟩).1
    ⟨"/tmp/f1", "cap"⟩ rfl rfl rfl rfl rfl (by decide)

end PicoClaw
